import Mathlib

/-!
Shallow embedding of the generic SQLAlchemy repository layer of the
2025-DW2-Estoque project (src/interfaces/ISQLAlchemyRepository.py,
src/repositories/CategoriaRepository.py, src/repositories/ProdutoRepository.py,
src/models.py), together with theorems checking the specification's claims.

Modelling conventions:
* UUIDs and timestamps are modelled as `Nat`; `DECIMAL(10,2)` prices as `Int`.
* Columns with a default (`id`, `preco`, `estoque`, `ativo`, `dta_cadastro`,
  `dta_atualizacao`) are `Option`-valued on the Python object; the defaults
  fire at INSERT flush, mirrored by `produtoDefaults` / `categoriaDefaults`.
* The stored state is `DB`: the two tables plus a counter supplying fresh
  generated ids and clock values.
* Every repository operation returns `Except RepoError result × DB × List Event`:
  the outcome, the committed state after the call, and the trace of storage
  interactions (row reads and commits) the call performed.  A session that is
  closed without commit discards its working state, so read operations return
  the input `DB` unchanged.
-/

/-- Errors surfaced by repository calls.
`invalidArgument` models the `ValueError` raised by pagination validation,
`typeMismatch` the `TypeError` of `get_produtos`, `notPersisted` the
`InvalidRequestError` SQLAlchemy raises when `Session.delete` receives the
pending instance that `Session.merge` produces for a key absent from storage,
`invalidRequest` the `InvalidRequestError` that `session.get` raises for an
identity whose arity does not match the model's primary key, and
`integrityError` a primary-key uniqueness violation at flush. -/
inductive RepoError where
  | invalidArgument
  | typeMismatch
  | notPersisted
  | invalidRequest
  | integrityError
deriving Repr, DecidableEq

/-- Observable storage interactions of one repository call: a query that reads
rows, or a transaction commit. -/
inductive Event where
  | read
  | commit
deriving Repr, DecidableEq

/-- Eager-load options appearing in the source (`joinedload(...)`).  They only
direct relationship materialization and never change the result rows. -/
inductive LoadOption where
  | joinedload_lista_de_produtos
  | joinedload_categoria
deriving Repr, DecidableEq

/-- SQL equality on nullable columns: `NULL = x` is never true. -/
def sqlEq : Option Nat → Option Nat → Bool
  | some a, some b => a == b
  | _, _ => false

/-- `models.Categoria`: `id` (UUID PK, default `uuid4`), `nome` (required),
and the `datasMixin` timestamp columns. -/
structure Categoria where
  id : Option Nat
  nome : String
  dta_cadastro : Option Nat
  dta_atualizacao : Option Nat
deriving Repr, DecidableEq

/-- `models.Produto`: `id` (UUID PK, default `uuid4`), `nome` (required),
`preco` (DECIMAL, default 0), `estoque` (Integer, default 0), `ativo`
(Boolean, default true), `categoria_id` (nullable FK), and the timestamp
columns. -/
structure Produto where
  id : Option Nat
  nome : String
  preco : Option Int
  estoque : Option Int
  ativo : Option Bool
  categoria_id : Option Nat
  dta_cadastro : Option Nat
  dta_atualizacao : Option Nat
deriving Repr, DecidableEq

/-- The committed database state: the `categorias` and `produtos` tables in
storage order, plus a counter supplying generated ids and clock readings. -/
structure DB where
  categorias : List Categoria
  produtos : List Produto
  fresh : Nat
deriving Repr, DecidableEq

/-- `ISQLAlchemyRepository._build_statement` followed by statement execution:
applies the eager-load options (result-invariant), then — if and only if BOTH
`page` and `page_size` are given — validates them (`ValueError` when
`page < 1 or page_size < 1`) and applies `offset = (page - 1) * page_size`
and `limit = page_size`. -/
def ISQLAlchemyRepository.build_statement {α : Type} (rows : List α)
    (load_options : Option (List LoadOption)) (page page_size : Option Int) :
    Except RepoError (List α) :=
  match load_options with
  | _ =>
    match page, page_size with
    | some p, some s =>
      if p < 1 ∨ s < 1 then .error .invalidArgument
      else .ok ((rows.drop ((p - 1) * s).toNat).take s.toNat)
    | _, _ => .ok rows

/-- `ISQLAlchemyRepository.get_all`: every row of the table, via
`_build_statement`; the validation error is raised before the statement
executes, so no row is read in that case. -/
def ISQLAlchemyRepository.get_all {α : Type}
    (load_options : Option (List LoadOption)) (page page_size : Option Int)
    (rows : List α) : Except RepoError (List α) × List Event :=
  match ISQLAlchemyRepository.build_statement rows load_options page page_size with
  | .error e => (.error e, [])
  | .ok out => (.ok out, [.read])

/-- `ISQLAlchemyRepository.get`: applies the optional predicate as a WHERE
clause, then `_build_statement`, then executes. -/
def ISQLAlchemyRepository.get {α : Type} (predicate : Option (α → Bool))
    (load_options : Option (List LoadOption)) (page page_size : Option Int)
    (rows : List α) : Except RepoError (List α) × List Event :=
  let stmt := match predicate with
    | some p => rows.filter p
    | none => rows
  match ISQLAlchemyRepository.build_statement stmt load_options page page_size with
  | .error e => (.error e, [])
  | .ok out => (.ok out, [.read])

/-- `ISQLAlchemyRepository.get_first`: first matching row or `none`; no
pagination is passed to `_build_statement`. -/
def ISQLAlchemyRepository.get_first {α : Type} (predicate : Option (α → Bool))
    (load_options : Option (List LoadOption))
    (rows : List α) : Except RepoError (Option α) × List Event :=
  let stmt := match predicate with
    | some p => rows.filter p
    | none => rows
  match ISQLAlchemyRepository.build_statement stmt load_options none none with
  | .error e => (.error e, [])
  | .ok out => (.ok out.head?, [.read])

/-- `ISQLAlchemyRepository.get_by_id`: with no key parts it returns `None`
before any session is opened; with one key part it is `session.get` on the
primary key.  The two models have single-column keys, so `session.get`
raises `InvalidRequestError` for a wider composite identity. -/
def ISQLAlchemyRepository.get_by_id {α : Type} (getId : α → Option Nat)
    (key : List Nat) (load_options : Option (List LoadOption))
    (rows : List α) : Except RepoError (Option α) × List Event :=
  match load_options with
  | _ =>
    match key with
    | [] => (.ok none, [])
    | [k] => (.ok (rows.find? fun r => sqlEq (getId r) (some k)), [.read])
    | _ :: _ :: _ => (.error .invalidRequest, [])

/-- `ISQLAlchemyRepository.count`: `SELECT count(*)` with the optional
predicate. -/
def ISQLAlchemyRepository.count {α : Type} (predicate : Option (α → Bool))
    (rows : List α) : Except RepoError Nat × List Event :=
  match predicate with
  | some p => (.ok (rows.filter p).length, [.read])
  | none => (.ok rows.length, [.read])

/-- Column defaults of `Produto` fired at INSERT flush: a generated id when
none was set, `preco = 0`, `estoque = 0`, `ativo = true`, and the
engine-assigned timestamps. -/
def produtoDefaults (x : Produto) (fresh : Nat) : Produto :=
  { x with
    id := some (x.id.getD fresh)
    preco := some (x.preco.getD 0)
    estoque := some (x.estoque.getD 0)
    ativo := some (x.ativo.getD true)
    dta_cadastro := some (x.dta_cadastro.getD fresh)
    dta_atualizacao := some (x.dta_atualizacao.getD fresh) }

/-- Column defaults of `Categoria` fired at INSERT flush. -/
def categoriaDefaults (c : Categoria) (fresh : Nat) : Categoria :=
  { c with
    id := some (c.id.getD fresh)
    dta_cadastro := some (c.dta_cadastro.getD fresh)
    dta_atualizacao := some (c.dta_atualizacao.getD fresh) }

/-- `ProdutoRepository.get_all` against the stored state.  The session is
closed without commit, so the committed state is returned unchanged. -/
def ProdutoRepository.get_all (load_options : Option (List LoadOption))
    (page page_size : Option Int) (db : DB) :
    Except RepoError (List Produto) × DB × List Event :=
  let r := ISQLAlchemyRepository.get_all load_options page page_size db.produtos
  (r.1, db, r.2)

/-- `ProdutoRepository.get` (inherited generic `get`) against the stored
state. -/
def ProdutoRepository.get (predicate : Option (Produto → Bool))
    (load_options : Option (List LoadOption)) (page page_size : Option Int)
    (db : DB) : Except RepoError (List Produto) × DB × List Event :=
  let r := ISQLAlchemyRepository.get predicate load_options page page_size db.produtos
  (r.1, db, r.2)

/-- `ProdutoRepository.get_first` against the stored state. -/
def ProdutoRepository.get_first (predicate : Option (Produto → Bool))
    (load_options : Option (List LoadOption)) (db : DB) :
    Except RepoError (Option Produto) × DB × List Event :=
  let r := ISQLAlchemyRepository.get_first predicate load_options db.produtos
  (r.1, db, r.2)

/-- `ProdutoRepository.get_by_id` against the stored state. -/
def ProdutoRepository.get_by_id (key : List Nat)
    (load_options : Option (List LoadOption)) (db : DB) :
    Except RepoError (Option Produto) × DB × List Event :=
  let r := ISQLAlchemyRepository.get_by_id (fun x => x.id) key load_options db.produtos
  (r.1, db, r.2)

/-- `ProdutoRepository.count` against the stored state. -/
def ProdutoRepository.count (predicate : Option (Produto → Bool)) (db : DB) :
    Except RepoError Nat × DB × List Event :=
  let r := ISQLAlchemyRepository.count predicate db.produtos
  (r.1, db, r.2)

/-- `ISQLAlchemyRepository.add` instantiated at `Produto`:
`session.add(entity); session.commit()`.  At flush the column defaults fire;
a duplicate primary key violates the PK constraint and the error propagates,
the session rolling back on exit. -/
def ProdutoRepository.add (x : Produto) (db : DB) :
    Except RepoError Unit × DB × List Event :=
  let stored := produtoDefaults x db.fresh
  if db.produtos.any fun r => sqlEq r.id stored.id then
    (.error .integrityError, db, [])
  else
    (.ok (), { db with produtos := db.produtos ++ [stored], fresh := db.fresh + 1 },
      [.commit])

/-- `ISQLAlchemyRepository.delete` instantiated at `Produto`:
`session.delete(session.merge(entity)); session.commit()`.  `merge` loads the
row with the entity's primary key; when storage has no such row (or the
entity has no key) the merge result is pending and `Session.delete` raises
`InvalidRequestError` (not persisted), the session rolling back on exit.
Otherwise the row is deleted and the transaction committed. -/
def ProdutoRepository.delete (x : Produto) (db : DB) :
    Except RepoError Unit × DB × List Event :=
  match x.id with
  | none => (.error .notPersisted, db, [])
  | some k =>
    if db.produtos.any fun r => sqlEq r.id (some k) then
      (.ok (),
        { db with produtos := db.produtos.filter fun r => !sqlEq r.id (some k) },
        [.read, .commit])
    else
      (.error .notPersisted, db, [.read])

/-- `ProdutoRepository.produtos_por_preco`: delegates to `get` with predicate
`Produto.preco.between(preco_minimo, preco_maximo)` (inclusive, NULL prices
never match). -/
def ProdutoRepository.produtos_por_preco (preco_minimo preco_maximo : Int)
    (page page_size : Option Int) (db : DB) :
    Except RepoError (List Produto) × DB × List Event :=
  ProdutoRepository.get
    (some fun x => match x.preco with
      | some v => preco_minimo ≤ v && v ≤ preco_maximo
      | none => false)
    none page page_size db

/-- `ProdutoRepository.produtos_sem_estoque`: delegates to `get` with
predicate `Produto.estoque <= 0` (NULL stock never matches). -/
def ProdutoRepository.produtos_sem_estoque (page page_size : Option Int)
    (db : DB) : Except RepoError (List Produto) × DB × List Event :=
  ProdutoRepository.get
    (some fun x => match x.estoque with
      | some v => v ≤ 0
      | none => false)
    none page page_size db

/-- `ProdutoRepository.produtos_inativos`: delegates to `get` with predicate
`Produto.ativo.is_(False)`. -/
def ProdutoRepository.produtos_inativos (page page_size : Option Int)
    (db : DB) : Except RepoError (List Produto) × DB × List Event :=
  ProdutoRepository.get (some fun x => x.ativo == some false)
    none page page_size db

/-- `CategoriaRepository.get_all` against the stored state. -/
def CategoriaRepository.get_all (load_options : Option (List LoadOption))
    (page page_size : Option Int) (db : DB) :
    Except RepoError (List Categoria) × DB × List Event :=
  let r := ISQLAlchemyRepository.get_all load_options page page_size db.categorias
  (r.1, db, r.2)

/-- `CategoriaRepository.get` (inherited generic `get`) against the stored
state. -/
def CategoriaRepository.get (predicate : Option (Categoria → Bool))
    (load_options : Option (List LoadOption)) (page page_size : Option Int)
    (db : DB) : Except RepoError (List Categoria) × DB × List Event :=
  let r := ISQLAlchemyRepository.get predicate load_options page page_size db.categorias
  (r.1, db, r.2)

/-- `CategoriaRepository.get_first` against the stored state. -/
def CategoriaRepository.get_first (predicate : Option (Categoria → Bool))
    (load_options : Option (List LoadOption)) (db : DB) :
    Except RepoError (Option Categoria) × DB × List Event :=
  let r := ISQLAlchemyRepository.get_first predicate load_options db.categorias
  (r.1, db, r.2)

/-- `CategoriaRepository.get_by_id` against the stored state. -/
def CategoriaRepository.get_by_id (key : List Nat)
    (load_options : Option (List LoadOption)) (db : DB) :
    Except RepoError (Option Categoria) × DB × List Event :=
  let r := ISQLAlchemyRepository.get_by_id (fun c => c.id) key load_options db.categorias
  (r.1, db, r.2)

/-- `CategoriaRepository.count` against the stored state. -/
def CategoriaRepository.count (predicate : Option (Categoria → Bool)) (db : DB) :
    Except RepoError Nat × DB × List Event :=
  let r := ISQLAlchemyRepository.count predicate db.categorias
  (r.1, db, r.2)

/-- `ISQLAlchemyRepository.add` instantiated at `Categoria`. -/
def CategoriaRepository.add (c : Categoria) (db : DB) :
    Except RepoError Unit × DB × List Event :=
  let stored := categoriaDefaults c db.fresh
  if db.categorias.any fun r => sqlEq r.id stored.id then
    (.error .integrityError, db, [])
  else
    (.ok (), { db with categorias := db.categorias ++ [stored], fresh := db.fresh + 1 },
      [.commit])

/-- `ISQLAlchemyRepository.delete` instantiated at `Categoria`.  Deleting a
persistent `Categoria` cascades over the `lista_de_produtos` relationship
(`cascade="all, delete-orphan"`), deleting every `Produto` whose
`categoria_id` is the category's id; a key absent from storage makes
`Session.delete` raise (not persisted) as for `Produto`. -/
def CategoriaRepository.delete (c : Categoria) (db : DB) :
    Except RepoError Unit × DB × List Event :=
  match c.id with
  | none => (.error .notPersisted, db, [])
  | some k =>
    if db.categorias.any fun r => sqlEq r.id (some k) then
      (.ok (),
        { db with
          categorias := db.categorias.filter fun r => !sqlEq r.id (some k)
          produtos := db.produtos.filter fun x => !sqlEq x.categoria_id (some k) },
        [.read, .commit])
    else
      (.error .notPersisted, db, [.read])

/-- `session.merge(categoria_info)` inside `get_produtos`: re-attaches the
detached value to the fresh unit-of-work, updating the row with its key or —
when storage has no such row — registering it as a pending insert (flushed
into the open transaction on lazy relationship access).  This touches only
the session's working state; it is never committed on this path. -/
def mergeCategoria (c : Categoria) (db : DB) : DB :=
  match c.id with
  | some k =>
    if db.categorias.any fun r => sqlEq r.id (some k) then
      { db with categorias := db.categorias.map fun r =>
          if sqlEq r.id (some k) then c else r }
    else
      { db with categorias := db.categorias ++ [c] }
  | none => { db with categorias := db.categorias ++ [c] }

/-- The polymorphic `categoria_info` argument of `get_produtos`: a
materialized `Categoria`, a bare primary-key UUID, or a value of any other
type (the `TypeError` branch). -/
inductive CategoriaRef where
  | obj (c : Categoria)
  | key (k : Nat)
  | invalid
deriving Repr, DecidableEq

/-- The in-memory pagination of `get_produtos` (lines 73-80 of
`CategoriaRepository.py`): applied to the already-fetched list, with the same
validation as `_build_statement`, and silently skipped unless both `page`
and `page_size` are given. -/
def paginateInMemory (lista : List Produto) (page page_size : Option Int) :
    Except RepoError (List Produto) :=
  match page, page_size with
  | some p, some s =>
    if p < 1 ∨ s < 1 then .error .invalidArgument
    else .ok ((lista.drop ((p - 1) * s).toNat).take s.toNat)
  | _, _ => .ok lista

/-- `CategoriaRepository.get_produtos`.  With a materialized `Categoria` the
value is merged into a fresh session and `lista_de_produtos` lazily loaded
(the merged working state is discarded when the session closes uncommitted):
for a key-less transient value the merge emits no SQL and the lazy access on
the resulting pending instance reads nothing, so no storage interaction
occurs; with a key, the merge's primary-key lookup reads storage, and when
the row exists the relationship is lazily loaded from the merged working
state (a pending merge result for an unknown key yields the empty
collection).  With a bare key, `get_by_id` with
`joinedload(lista_de_produtos)` runs and an unknown key returns `[]` at
once; any other argument raises `TypeError` before touching storage.
Pagination is validated and applied only after the product list has been
fetched. -/
def CategoriaRepository.get_produtos (categoria_info : CategoriaRef)
    (page page_size : Option Int) (db : DB) :
    Except RepoError (List Produto) × DB × List Event :=
  match categoria_info with
  | .obj c =>
    match c.id with
    | none => (paginateInMemory [] page page_size, db, [])
    | some k =>
      if db.categorias.any fun r => sqlEq r.id (some k) then
        (paginateInMemory
          ((mergeCategoria c db).produtos.filter fun x => sqlEq x.categoria_id (some k))
          page page_size, db, [.read])
      else
        (paginateInMemory [] page page_size, db, [.read])
  | .key k =>
    let r := ISQLAlchemyRepository.get_by_id (fun c => c.id) [k]
      (some [LoadOption.joinedload_lista_de_produtos]) db.categorias
    match r.1 with
    | .ok (some c) =>
      let lista := db.produtos.filter fun x => sqlEq x.categoria_id c.id
      (paginateInMemory lista page page_size, db, r.2)
    | .ok none => (.ok [], db, r.2)
    | .error e => (.error e, db, r.2)
  | .invalid => (.error .typeMismatch, db, [])

/-- `CategoriaRepository.get_categorias_sem_produtos`: delegates to `get`
with the anti-join predicate `~Categoria.lista_de_produtos.any()` — no
`Produto` row joins this category. -/
def CategoriaRepository.get_categorias_sem_produtos (page page_size : Option Int)
    (db : DB) : Except RepoError (List Categoria) × DB × List Event :=
  CategoriaRepository.get
    (some fun c => !db.produtos.any fun x => sqlEq x.categoria_id c.id)
    none page page_size db

/-- The rows of a successful generic query result (`[]` for an error). -/
def okRows {α : Type} (r : Except RepoError (List α) × List Event) : List α :=
  match r.1 with
  | .ok l => l
  | .error _ => []

/-- The rows of a successful repository call against the stored state. -/
def rowsOf {α : Type} (r : Except RepoError (List α) × DB × List Event) : List α :=
  match r.1 with
  | .ok l => l
  | .error _ => []

/-- Concatenation of the pages `f 0, f 1, ..., f (n-1)`, in increasing page
order. -/
def joinPages {α : Type} (f : Nat → List α) : Nat → List α
  | 0 => []
  | n + 1 => joinPages f n ++ f n

/-- Fixture: a stored category owning two products. -/
def cat1 : Categoria :=
  { id := some 1, nome := "Eletronicos", dta_cadastro := some 0, dta_atualizacao := some 0 }

/-- Fixture: a stored category owning no products. -/
def cat2 : Categoria :=
  { id := some 2, nome := "Vazia", dta_cadastro := some 0, dta_atualizacao := some 0 }

/-- Fixture: product priced 25, in stock, active, in category 1. -/
def prodA : Produto :=
  { id := some 10, nome := "Mouse", preco := some 25, estoque := some 5,
    ativo := some true, categoria_id := some 1,
    dta_cadastro := some 0, dta_atualizacao := some 0 }

/-- Fixture: product priced 10, stock 0, inactive, in category 1. -/
def prodB : Produto :=
  { id := some 11, nome := "Teclado", preco := some 10, estoque := some 0,
    ativo := some false, categoria_id := some 1,
    dta_cadastro := some 0, dta_atualizacao := some 0 }

/-- Fixture: product priced 50, stock -2, active, in no category. -/
def prodC : Produto :=
  { id := some 12, nome := "Monitor", preco := some 50, estoque := some (-2),
    ativo := some true, categoria_id := none,
    dta_cadastro := some 0, dta_atualizacao := some 0 }

/-- Fixture: a stored state with two categories and three products (priced
10, 25 and 50). -/
def dbLoja : DB :=
  { categorias := [cat1, cat2], produtos := [prodA, prodB, prodC], fresh := 100 }

/-- Fixture: a transient product with every defaulted column unset. -/
def prodNew : Produto :=
  { id := none, nome := "Cabo", preco := none, estoque := none,
    ativo := none, categoria_id := some 1,
    dta_cadastro := none, dta_atualizacao := none }

/-- Fixture: a transient category with every defaulted column unset. -/
def catNew : Categoria :=
  { id := none, nome := "Nova", dta_cadastro := none, dta_atualizacao := none }

/-- Fixture: a category value whose key matches no stored row. -/
def catGhost : Categoria :=
  { id := some 99, nome := "Fantasma", dta_cadastro := some 0, dta_atualizacao := some 0 }

/-- Fixture: a product value whose key matches no stored row. -/
def prodGhost : Produto :=
  { id := some 99, nome := "Sumido", preco := some 1, estoque := some 1,
    ativo := some true, categoria_id := none,
    dta_cadastro := some 0, dta_atualizacao := some 0 }

/-- Fixture: a detached, locally mutated copy of `prodA` — same primary key
as the stored row, different scalar fields. -/
def prodAcopia : Produto :=
  { prodA with nome := "Mouse alterado", preco := some 30 }

/-- The stored state after adding `prodNew` to `dbLoja`. -/
def dbAfterAddP : DB := (ProdutoRepository.add prodNew dbLoja).2.1

/-- The stored state after adding `catNew` to `dbLoja`. -/
def dbAfterAddC : DB := (CategoriaRepository.add catNew dbLoja).2.1

example : sqlEq (some 3) (some 3) = true := rfl
example : sqlEq none (some 3) = false := rfl
example : ISQLAlchemyRepository.build_statement [1, 2, 3] none (some 2) (some 2)
    = .ok [3] := rfl
example : ISQLAlchemyRepository.build_statement [1, 2, 3] none (some 0) (some 2)
    = (.error .invalidArgument : Except RepoError (List Nat)) := rfl
example : ISQLAlchemyRepository.build_statement [1, 2, 3] none (some 0) none
    = .ok [1, 2, 3] := rfl
example : rowsOf (ProdutoRepository.produtos_por_preco 20 40 none none dbLoja) = [prodA] := rfl
example : rowsOf (ProdutoRepository.produtos_sem_estoque none none dbLoja) = [prodB, prodC] := rfl
example : rowsOf (ProdutoRepository.produtos_inativos none none dbLoja) = [prodB] := rfl
example : rowsOf (CategoriaRepository.get_categorias_sem_produtos none none dbLoja) = [cat2] := rfl
example : rowsOf (CategoriaRepository.get_produtos (.obj cat1) none none dbLoja)
    = [prodA, prodB] := rfl
example : rowsOf (CategoriaRepository.get_produtos (.key 1) none none dbLoja)
    = [prodA, prodB] := rfl
example : CategoriaRepository.get_produtos (.key 99) (some 0) (some 5) dbLoja
    = (.ok [], dbLoja, [.read]) := rfl
example : CategoriaRepository.get_produtos (.obj catNew) (some 0) (some 5) dbLoja
    = (.error .invalidArgument, dbLoja, []) := rfl
example : CategoriaRepository.get_produtos (.obj catGhost) (some 0) (some 5) dbLoja
    = (.error .invalidArgument, dbLoja, [.read]) := rfl
example : (CategoriaRepository.delete catGhost dbLoja).1 = .error .notPersisted := rfl
example : (CategoriaRepository.delete cat1 dbLoja).2.1
    = { categorias := [cat2], produtos := [prodC], fresh := 100 } := rfl
example : (ProdutoRepository.add prodNew dbLoja).1 = .ok () := rfl
example : dbAfterAddP.produtos.length = 4 := rfl

theorem sqlEq_some_iff (a : Option Nat) (k : Nat) : sqlEq a (some k) = true ↔ a = some k := by
  cases a <;> simp [sqlEq]

theorem mergeCategoria_produtos (c : Categoria) (db : DB) :
    (mergeCategoria c db).produtos = db.produtos := by
  unfold mergeCategoria
  cases c.id with
  | none => rfl
  | some k =>
    dsimp only
    split <;> rfl

theorem joinPages_congr {α : Type} {f g : Nat → List α} (h : ∀ i, f i = g i) :
    ∀ n, joinPages f n = joinPages g n := by
  intro n
  induction n with
  | zero => rfl
  | succ m ih => simp only [joinPages, ih, h m]

theorem joinPages_chunks {α : Type} (k : Nat) (xs : List α) (n : Nat) :
    joinPages (fun i => (xs.drop (i * k)).take k) n = xs.take (n * k) := by
  induction n with
  | zero => simp [joinPages]
  | succ m ih =>
    simp only [joinPages, ih]
    rw [Nat.succ_mul, List.take_add]

theorem ceil_mul_ge (m k : Nat) (hk : 1 ≤ k) : m ≤ ((m + k - 1) / k) * k := by
  have h1 := Nat.div_add_mod (m + k - 1) k
  have h2 : (m + k - 1) % k < k := Nat.mod_lt _ hk
  rw [Nat.mul_comm]
  generalize k * ((m + k - 1) / k) = t at h1 ⊢
  generalize (m + k - 1) % k = r at h1 h2
  omega

/-- C2: for every stored table, every predicate, and every `page_size = k ≥ 1`,
concatenating the results of `get(predicate, page=1, page_size=k)` through
`get(predicate, page=ceil(N/k), page_size=k)` (N the number of stored rows)
yields exactly the unpaginated `get(predicate)` result — each row exactly
once, in the same relative order, each page being the window of at most `k`
rows at offset `(page - 1) * page_size`. -/
theorem pagination_partition {α : Type} (rows : List α) (pred : α → Bool)
    (k : Nat) (hk : 1 ≤ k) :
    joinPages
      (fun i => okRows (ISQLAlchemyRepository.get (some pred) none
        (some ((i : Int) + 1)) (some ((k : Nat) : Int)) rows))
      ((rows.length + k - 1) / k)
    = okRows (ISQLAlchemyRepository.get (some pred) none none none rows) := by
  have hpage : ∀ i : Nat,
      okRows (ISQLAlchemyRepository.get (some pred) none
        (some ((i : Int) + 1)) (some ((k : Nat) : Int)) rows)
        = ((rows.filter pred).drop (i * k)).take k := by
    intro i
    have hcond : ¬(((i : Int) + 1) < 1 ∨ ((k : Nat) : Int) < 1) := by omega
    have harith : (((i : Int) + 1 - 1) * ((k : Nat) : Int)).toNat = i * k := by
      have h : ((i : Int) + 1 - 1) * ((k : Nat) : Int) = ((i * k : Nat) : Int) := by
        push_cast
        ring
      rw [h, Int.toNat_natCast]
    simp only [ISQLAlchemyRepository.get, ISQLAlchemyRepository.build_statement,
      if_neg hcond, harith, Int.toNat_natCast, okRows]
  have hall : okRows (ISQLAlchemyRepository.get (some pred) none none none rows)
      = rows.filter pred := by
    simp only [ISQLAlchemyRepository.get, ISQLAlchemyRepository.build_statement, okRows]
  rw [hall, joinPages_congr hpage, joinPages_chunks]
  exact List.take_of_length_le
    (le_trans (List.length_filter_le _ _) (ceil_mul_ge rows.length k hk))

/-- Witness for `pagination_partition` at a concrete table and page size. -/
theorem pagination_partition_witness :
    (1 : Nat) ≤ 2 ∧
    joinPages
      (fun i => okRows (ISQLAlchemyRepository.get (some fun _ : Nat => true) none
        (some ((i : Int) + 1)) (some (((2 : Nat) : Nat) : Int)) [1, 2, 3]))
      ((([1, 2, 3] : List Nat).length + 2 - 1) / 2)
    = okRows (ISQLAlchemyRepository.get (some fun _ : Nat => true) none none none
        [1, 2, 3]) :=
  ⟨by decide, pagination_partition [1, 2, 3] (fun _ => true) 2 (by decide)⟩

/-- C3: whenever exactly one of `page`/`page_size` is supplied — any integer,
including values below 1 — pagination is silently skipped: no error is
raised and the result equals the same call with neither parameter, for the
generic `get_all`/`get` and for every specialized pagination-accepting
operation. -/
theorem single_pagination_param_skipped :
    (∀ (α : Type) (rows : List α) (lo : Option (List LoadOption))
        (pred : Option (α → Bool)) (p : Int),
      ISQLAlchemyRepository.get_all lo (some p) none rows
        = ISQLAlchemyRepository.get_all lo none none rows ∧
      ISQLAlchemyRepository.get_all lo none (some p) rows
        = ISQLAlchemyRepository.get_all lo none none rows ∧
      ISQLAlchemyRepository.get pred lo (some p) none rows
        = ISQLAlchemyRepository.get pred lo none none rows ∧
      ISQLAlchemyRepository.get pred lo none (some p) rows
        = ISQLAlchemyRepository.get pred lo none none rows) ∧
    (∀ (db : DB) (p pmin pmax : Int) (info : CategoriaRef),
      ProdutoRepository.produtos_por_preco pmin pmax (some p) none db
        = ProdutoRepository.produtos_por_preco pmin pmax none none db ∧
      ProdutoRepository.produtos_por_preco pmin pmax none (some p) db
        = ProdutoRepository.produtos_por_preco pmin pmax none none db ∧
      ProdutoRepository.produtos_sem_estoque (some p) none db
        = ProdutoRepository.produtos_sem_estoque none none db ∧
      ProdutoRepository.produtos_sem_estoque none (some p) db
        = ProdutoRepository.produtos_sem_estoque none none db ∧
      ProdutoRepository.produtos_inativos (some p) none db
        = ProdutoRepository.produtos_inativos none none db ∧
      ProdutoRepository.produtos_inativos none (some p) db
        = ProdutoRepository.produtos_inativos none none db ∧
      CategoriaRepository.get_categorias_sem_produtos (some p) none db
        = CategoriaRepository.get_categorias_sem_produtos none none db ∧
      CategoriaRepository.get_categorias_sem_produtos none (some p) db
        = CategoriaRepository.get_categorias_sem_produtos none none db ∧
      CategoriaRepository.get_produtos info (some p) none db
        = CategoriaRepository.get_produtos info none none db ∧
      CategoriaRepository.get_produtos info none (some p) db
        = CategoriaRepository.get_produtos info none none db) := by
  refine ⟨fun α rows lo pred p => ⟨rfl, rfl, rfl, rfl⟩, ?_⟩
  intro db p pmin pmax info
  refine ⟨rfl, rfl, rfl, rfl, rfl, rfl, rfl, rfl, ?_, ?_⟩
  all_goals
    cases info with
    | invalid => rfl
    | obj c =>
      cases hcid : c.id with
      | none => simp [CategoriaRepository.get_produtos, hcid, paginateInMemory]
      | some k =>
        simp only [CategoriaRepository.get_produtos, hcid]
        split <;> simp [paginateInMemory]
    | key k =>
      cases hf : List.find? (fun r => sqlEq r.id (some k)) db.categorias <;>
        simp [CategoriaRepository.get_produtos, ISQLAlchemyRepository.get_by_id,
          hf, paginateInMemory]

/-- C9: `get` with `predicate=None` returns exactly the same result as
`get_all` for every load option and pagination input; and
`produtos_por_preco(min, max)` returns exactly the stored products whose
price lies in the inclusive range `[min, max]` — in particular, with products
priced 10, 25 and 50, `produtos_por_preco(20, 40)` returns exactly the
product priced 25. -/
theorem get_none_is_get_all_and_price_range :
    (∀ (α : Type) (rows : List α) (lo : Option (List LoadOption))
        (page page_size : Option Int),
      ISQLAlchemyRepository.get none lo page page_size rows
        = ISQLAlchemyRepository.get_all lo page page_size rows) ∧
    (∀ (lo : Option (List LoadOption)) (page page_size : Option Int) (db : DB),
      ProdutoRepository.get none lo page page_size db
        = ProdutoRepository.get_all lo page page_size db ∧
      CategoriaRepository.get none lo page page_size db
        = CategoriaRepository.get_all lo page page_size db) ∧
    (∀ (pmin pmax : Int) (db : DB) (x : Produto),
      x ∈ rowsOf (ProdutoRepository.produtos_por_preco pmin pmax none none db)
        ↔ x ∈ db.produtos ∧ ∃ v, x.preco = some v ∧ pmin ≤ v ∧ v ≤ pmax) ∧
    ProdutoRepository.produtos_por_preco 20 40 none none dbLoja
      = (.ok [prodA], dbLoja, [.read]) := by
  refine ⟨fun α rows lo page page_size => rfl,
    fun lo page page_size db => ⟨rfl, rfl⟩, ?_, rfl⟩
  intro pmin pmax db x
  simp only [ProdutoRepository.produtos_por_preco, ProdutoRepository.get,
    ISQLAlchemyRepository.get, ISQLAlchemyRepository.build_statement, rowsOf,
    List.mem_filter]
  cases hx : x.preco with
  | none => simp [hx]
  | some v => simp [hx]

/-- C1 (amended): when both `page` and `page_size` are supplied and
`page < 1` or `page_size < 1`, `get_all`, `get`,
`get_categorias_sem_produtos`, `produtos_por_preco`, `produtos_sem_estoque`
and `produtos_inativos` fail with `InvalidArgument` before any storage
interaction (no row read, state untouched), and so does `get_produtos` given
a key-less transient `Categoria` (its merge and pending lazy access emit no
SQL).  `get_produtos` given a `Categoria` carrying a primary key, or a bare
key matching a stored category, raises the same error with the state
untouched but only after storage has been read; with a bare key matching no
stored category it returns `[]` without validating pagination at all. -/
theorem pagination_validation_amended (p s : Int) (db : DB) (h : p < 1 ∨ s < 1) :
    (∀ (lo : Option (List LoadOption)) (predP : Option (Produto → Bool))
        (predC : Option (Categoria → Bool)),
      ProdutoRepository.get_all lo (some p) (some s) db
        = (.error .invalidArgument, db, []) ∧
      CategoriaRepository.get_all lo (some p) (some s) db
        = (.error .invalidArgument, db, []) ∧
      ProdutoRepository.get predP lo (some p) (some s) db
        = (.error .invalidArgument, db, []) ∧
      CategoriaRepository.get predC lo (some p) (some s) db
        = (.error .invalidArgument, db, [])) ∧
    (∀ pmin pmax : Int,
      ProdutoRepository.produtos_por_preco pmin pmax (some p) (some s) db
        = (.error .invalidArgument, db, [])) ∧
    ProdutoRepository.produtos_sem_estoque (some p) (some s) db
      = (.error .invalidArgument, db, []) ∧
    ProdutoRepository.produtos_inativos (some p) (some s) db
      = (.error .invalidArgument, db, []) ∧
    CategoriaRepository.get_categorias_sem_produtos (some p) (some s) db
      = (.error .invalidArgument, db, []) ∧
    (∀ c : Categoria, c.id = none →
      CategoriaRepository.get_produtos (.obj c) (some p) (some s) db
        = (.error .invalidArgument, db, [])) ∧
    (∀ (c : Categoria) (k : Nat), c.id = some k →
      CategoriaRepository.get_produtos (.obj c) (some p) (some s) db
        = (.error .invalidArgument, db, [.read])) ∧
    (∀ (k : Nat) (c : Categoria),
      List.find? (fun r => sqlEq r.id (some k)) db.categorias = some c →
      CategoriaRepository.get_produtos (.key k) (some p) (some s) db
        = (.error .invalidArgument, db, [.read])) ∧
    (∀ k : Nat,
      List.find? (fun r => sqlEq r.id (some k)) db.categorias = none →
      CategoriaRepository.get_produtos (.key k) (some p) (some s) db
        = (.ok [], db, [.read])) := by
  have hb : ∀ (α : Type) (rows : List α) (lo : Option (List LoadOption)),
      ISQLAlchemyRepository.build_statement rows lo (some p) (some s)
        = .error .invalidArgument := by
    intro α rows lo
    simp only [ISQLAlchemyRepository.build_statement, if_pos h]
  refine ⟨?_, ?_, ?_, ?_, ?_, ?_, ?_, ?_, ?_⟩
  · intro lo predP predC
    refine ⟨?_, ?_, ?_, ?_⟩ <;>
      simp [ProdutoRepository.get_all, CategoriaRepository.get_all,
        ProdutoRepository.get, CategoriaRepository.get,
        ISQLAlchemyRepository.get_all, ISQLAlchemyRepository.get, hb]
  · intro pmin pmax
    simp [ProdutoRepository.produtos_por_preco, ProdutoRepository.get,
      ISQLAlchemyRepository.get, hb]
  · simp [ProdutoRepository.produtos_sem_estoque, ProdutoRepository.get,
      ISQLAlchemyRepository.get, hb]
  · simp [ProdutoRepository.produtos_inativos, ProdutoRepository.get,
      ISQLAlchemyRepository.get, hb]
  · simp [CategoriaRepository.get_categorias_sem_produtos, CategoriaRepository.get,
      ISQLAlchemyRepository.get, hb]
  · intro c hcid
    simp [CategoriaRepository.get_produtos, hcid, paginateInMemory, if_pos h]
  · intro c k hcid
    simp only [CategoriaRepository.get_produtos, hcid]
    split <;> simp [paginateInMemory, if_pos h]
  · intro k c hf
    simp [CategoriaRepository.get_produtos, ISQLAlchemyRepository.get_by_id, hf,
      paginateInMemory, if_pos h]
  · intro k hf
    simp [CategoriaRepository.get_produtos, ISQLAlchemyRepository.get_by_id, hf]

/-- Witness for `pagination_validation_amended` at `page=0`, `page_size=5`. -/
theorem pagination_validation_amended_witness :
    ((0 : Int) < 1 ∨ (5 : Int) < 1) ∧
    ProdutoRepository.get_all none (some 0) (some 5) dbLoja
      = (.error .invalidArgument, dbLoja, []) :=
  ⟨Or.inl (by decide),
    ((pagination_validation_amended 0 5 dbLoja (Or.inl (by decide))).1 none none
      none).1⟩

/-- C1 counterexample: `get_produtos` with a bare key matching no stored
category and invalid pagination (`page=0`, `page_size=5`) succeeds with `[]`
instead of failing with `InvalidArgument`; and with a materialized category
and the same invalid pagination, a row read happens before the error is
raised (the storage-interaction trace is non-empty). -/
theorem pagination_validation_cex :
    CategoriaRepository.get_produtos (.key 99) (some 0) (some 5) dbLoja
      = (.ok [], dbLoja, [.read]) ∧
    (CategoriaRepository.get_produtos (.obj cat1) (some 0) (some 5) dbLoja).2.2
      = [.read] ∧
    ([Event.read] : List Event) ≠ [] :=
  ⟨rfl, rfl, by decide⟩

theorem sqlEq_some_false_iff (a : Option Nat) (k : Nat) :
    sqlEq a (some k) = false ↔ a ≠ some k := by
  cases a <;> simp [sqlEq]

/-- C7: single-entity lookups that find nothing return an absent value rather
than raising: `get_by_id` with zero key parts returns `None` without opening
a session; `get_by_id` with an unknown key returns `None`; `get_first` with
no matching row returns `None`; `get_produtos` with an unknown bare key
returns the empty list. -/
theorem soft_not_found (db : DB) (lo : Option (List LoadOption)) (k : Nat)
    (predP : Produto → Bool)
    (hkP : ∀ r ∈ db.produtos, r.id ≠ some k)
    (hkC : ∀ r ∈ db.categorias, r.id ≠ some k)
    (hpred : db.produtos.filter predP = []) :
    ProdutoRepository.get_by_id [] lo db = (.ok none, db, []) ∧
    CategoriaRepository.get_by_id [] lo db = (.ok none, db, []) ∧
    ProdutoRepository.get_by_id [k] lo db = (.ok none, db, [.read]) ∧
    CategoriaRepository.get_by_id [k] lo db = (.ok none, db, [.read]) ∧
    ProdutoRepository.get_first (some predP) lo db = (.ok none, db, [.read]) ∧
    CategoriaRepository.get_produtos (.key k) none none db = (.ok [], db, [.read]) := by
  have hfP : db.produtos.find? (fun r => sqlEq r.id (some k)) = none :=
    List.find?_eq_none.mpr fun r hr => by
      simp only [sqlEq_some_iff]
      exact hkP r hr
  have hfC : db.categorias.find? (fun r => sqlEq r.id (some k)) = none :=
    List.find?_eq_none.mpr fun r hr => by
      simp only [sqlEq_some_iff]
      exact hkC r hr
  refine ⟨rfl, rfl, ?_, ?_, ?_, ?_⟩
  · simp [ProdutoRepository.get_by_id, ISQLAlchemyRepository.get_by_id, hfP]
  · simp [CategoriaRepository.get_by_id, ISQLAlchemyRepository.get_by_id, hfC]
  · simp [ProdutoRepository.get_first, ISQLAlchemyRepository.get_first,
      ISQLAlchemyRepository.build_statement, hpred]
  · simp [CategoriaRepository.get_produtos, ISQLAlchemyRepository.get_by_id, hfC]

/-- Witness for `soft_not_found` at key 99 and a never-matching filter on the
concrete store. -/
theorem soft_not_found_witness :
    ProdutoRepository.get_by_id [99] none dbLoja = (.ok none, dbLoja, [.read]) ∧
    CategoriaRepository.get_produtos (.key 99) none none dbLoja
      = (.ok [], dbLoja, [.read]) :=
  ⟨(soft_not_found dbLoja none 99 (fun x => x.nome == "Inexistente") (by decide)
      (by decide) (by decide)).2.2.1,
   (soft_not_found dbLoja none 99 (fun x => x.nome == "Inexistente") (by decide)
      (by decide) (by decide)).2.2.2.2.2⟩

/-- C8: for a stored `Categoria` value, `get_produtos` on the materialized
value and on its bare primary key return exactly the same products; and an
argument of any other shape fails with `TypeMismatch` before touching
storage. -/
theorem get_produtos_polymorphic (db : DB) (c : Categoria) (k : Nat)
    (hc : c ∈ db.categorias) (hk : c.id = some k) :
    CategoriaRepository.get_produtos (.obj c) none none db
      = CategoriaRepository.get_produtos (.key k) none none db ∧
    (∀ page page_size : Option Int,
      CategoriaRepository.get_produtos .invalid page page_size db
        = (.error .typeMismatch, db, [])) := by
  constructor
  · have hany : (db.categorias.any fun r => sqlEq r.id (some k)) = true :=
      List.any_eq_true.mpr ⟨c, hc, by rw [hk]; simp [sqlEq]⟩
    have hsome : (db.categorias.find? fun r => sqlEq r.id (some k)).isSome :=
      List.find?_isSome.mpr ⟨c, hc, by rw [hk]; simp [sqlEq]⟩
    obtain ⟨c', hc'⟩ := Option.isSome_iff_exists.mp hsome
    have hid' : c'.id = some k := by
      have hp := List.find?_some hc'
      simpa [sqlEq_some_iff] using hp
    simp [CategoriaRepository.get_produtos, ISQLAlchemyRepository.get_by_id,
      hc', hk, hany, hid', mergeCategoria_produtos, paginateInMemory]
  · intro page page_size
    rfl

/-- Witness for `get_produtos_polymorphic` at the stored category `cat1`. -/
theorem get_produtos_polymorphic_witness :
    CategoriaRepository.get_produtos (.obj cat1) none none dbLoja
      = CategoriaRepository.get_produtos (.key 1) none none dbLoja ∧
    CategoriaRepository.get_produtos .invalid none none dbLoja
      = (.error .typeMismatch, dbLoja, []) :=
  ⟨(get_produtos_polymorphic dbLoja cat1 1 (by decide) rfl).1,
   (get_produtos_polymorphic dbLoja cat1 1 (by decide) rfl).2 none none⟩

/-- C4: after a successful `add(x)`, `get_by_id` with the stored primary key
returns a row whose persisted fields equal `x`'s fields, with every
defaulted/auto-assigned column (generated id, timestamps, column defaults)
populated on the stored representation, and the call committed. -/
theorem add_then_get_by_id (x : Produto) (c : Categoria) (db dbP dbC : DB)
    (evP evC : List Event)
    (hP : ProdutoRepository.add x db = (.ok (), dbP, evP))
    (hC : CategoriaRepository.add c db = (.ok (), dbC, evC)) :
    (∃ r : Produto,
      ProdutoRepository.get_by_id [x.id.getD db.fresh] none dbP
        = (.ok (some r), dbP, [Event.read]) ∧
      r.nome = x.nome ∧ r.categoria_id = x.categoria_id ∧
      (∀ v, x.id = some v → r.id = some v) ∧
      (∀ v, x.preco = some v → r.preco = some v) ∧
      (∀ v, x.estoque = some v → r.estoque = some v) ∧
      (∀ b, x.ativo = some b → r.ativo = some b) ∧
      (∀ t, x.dta_cadastro = some t → r.dta_cadastro = some t) ∧
      (∀ t, x.dta_atualizacao = some t → r.dta_atualizacao = some t) ∧
      r.id.isSome = true ∧ r.preco.isSome = true ∧ r.estoque.isSome = true ∧
      r.ativo.isSome = true ∧ r.dta_cadastro.isSome = true ∧
      r.dta_atualizacao.isSome = true ∧ evP = [Event.commit]) ∧
    (∃ r : Categoria,
      CategoriaRepository.get_by_id [c.id.getD db.fresh] none dbC
        = (.ok (some r), dbC, [Event.read]) ∧
      r.nome = c.nome ∧
      (∀ v, c.id = some v → r.id = some v) ∧
      (∀ t, c.dta_cadastro = some t → r.dta_cadastro = some t) ∧
      (∀ t, c.dta_atualizacao = some t → r.dta_atualizacao = some t) ∧
      r.id.isSome = true ∧ r.dta_cadastro.isSome = true ∧
      r.dta_atualizacao.isSome = true ∧ evC = [Event.commit]) := by
  constructor
  · unfold ProdutoRepository.add at hP
    dsimp only at hP
    split at hP
    · exact absurd hP (by simp)
    · rename_i hdup
      obtain ⟨hdb, hev⟩ :
          ({ db with
              produtos := db.produtos ++ [produtoDefaults x db.fresh]
              fresh := db.fresh + 1 } : DB) = dbP ∧ [Event.commit] = evP := by
        simpa using hP
      subst hdb hev
      have hdup' : (db.produtos.any fun r =>
          sqlEq r.id (some (x.id.getD db.fresh))) = false :=
        Bool.eq_false_iff.mpr hdup
      have h1 : db.produtos.find? (fun r => sqlEq r.id (some (x.id.getD db.fresh)))
          = none :=
        List.find?_eq_none.mpr (List.any_eq_false.mp hdup')
      have hp : sqlEq (produtoDefaults x db.fresh).id (some (x.id.getD db.fresh))
          = true := by
        simp [produtoDefaults, sqlEq]
      have hfind : ((db.produtos ++ [produtoDefaults x db.fresh]).find? fun r =>
          sqlEq r.id (some (x.id.getD db.fresh))) = some (produtoDefaults x db.fresh) := by
        rw [List.find?_append, h1]
        simp [List.find?_cons, hp, Option.none_or]
      refine ⟨produtoDefaults x db.fresh, ?_, rfl, rfl, ?_, ?_, ?_, ?_, ?_, ?_,
        rfl, rfl, rfl, rfl, rfl, rfl, rfl⟩
      · simp only [ProdutoRepository.get_by_id, ISQLAlchemyRepository.get_by_id]
        rw [hfind]
      all_goals intro v hv
      all_goals simp [produtoDefaults, hv]
  · unfold CategoriaRepository.add at hC
    dsimp only at hC
    split at hC
    · exact absurd hC (by simp)
    · rename_i hdup
      obtain ⟨hdb, hev⟩ :
          ({ db with
              categorias := db.categorias ++ [categoriaDefaults c db.fresh]
              fresh := db.fresh + 1 } : DB) = dbC ∧ [Event.commit] = evC := by
        simpa using hC
      subst hdb hev
      have hdup' : (db.categorias.any fun r =>
          sqlEq r.id (some (c.id.getD db.fresh))) = false :=
        Bool.eq_false_iff.mpr hdup
      have h1 : db.categorias.find? (fun r => sqlEq r.id (some (c.id.getD db.fresh)))
          = none :=
        List.find?_eq_none.mpr (List.any_eq_false.mp hdup')
      have hp : sqlEq (categoriaDefaults c db.fresh).id (some (c.id.getD db.fresh))
          = true := by
        simp [categoriaDefaults, sqlEq]
      have hfind : ((db.categorias ++ [categoriaDefaults c db.fresh]).find? fun r =>
          sqlEq r.id (some (c.id.getD db.fresh))) = some (categoriaDefaults c db.fresh) := by
        rw [List.find?_append, h1]
        simp [List.find?_cons, hp, Option.none_or]
      refine ⟨categoriaDefaults c db.fresh, ?_, rfl, ?_, ?_, ?_, rfl, rfl, rfl, rfl⟩
      · simp only [CategoriaRepository.get_by_id, ISQLAlchemyRepository.get_by_id]
        rw [hfind]
      all_goals intro v hv
      all_goals simp [categoriaDefaults, hv]

/-- Witness for `add_then_get_by_id`: adding the transient `prodNew` (and
`catNew`) to the concrete store and looking the stored key up. -/
theorem add_then_get_by_id_witness :
    ∃ r : Produto,
      ProdutoRepository.get_by_id [prodNew.id.getD dbLoja.fresh] none dbAfterAddP
        = (.ok (some r), dbAfterAddP, [Event.read]) ∧
      r.nome = prodNew.nome ∧ r.categoria_id = prodNew.categoria_id ∧
      (∀ v, prodNew.id = some v → r.id = some v) ∧
      (∀ v, prodNew.preco = some v → r.preco = some v) ∧
      (∀ v, prodNew.estoque = some v → r.estoque = some v) ∧
      (∀ b, prodNew.ativo = some b → r.ativo = some b) ∧
      (∀ t, prodNew.dta_cadastro = some t → r.dta_cadastro = some t) ∧
      (∀ t, prodNew.dta_atualizacao = some t → r.dta_atualizacao = some t) ∧
      r.id.isSome = true ∧ r.preco.isSome = true ∧ r.estoque.isSome = true ∧
      r.ativo.isSome = true ∧ r.dta_cadastro.isSome = true ∧
      r.dta_atualizacao.isSome = true ∧ [Event.commit] = [Event.commit] :=
  (add_then_get_by_id prodNew catNew dbLoja dbAfterAddP dbAfterAddC
    [Event.commit] [Event.commit] rfl rfl).1

/-- C5 counterexample: deleting an entity whose key matches no stored row
does not complete silently — it surfaces a not-persisted error (SQLAlchemy's
`InvalidRequestError` on deleting the pending result of the merge), for both
repositories, on a concrete store. -/
theorem delete_missing_key_cex :
    CategoriaRepository.delete catGhost dbLoja
      = (.error .notPersisted, dbLoja, [.read]) ∧
    ProdutoRepository.delete prodGhost dbLoja
      = (.error .notPersisted, dbLoja, [.read]) :=
  ⟨rfl, rfl⟩

/-- C5 (amended): `delete(e)` with a primary key matching no stored row (or
with no key at all) raises a not-persisted error — surfaced, not tolerated —
and leaves the stored state unchanged; with a key matching a stored row
(the entity may be any value carrying that key, such as a detached mutated
copy: merge re-attaches by primary key before the delete) it removes exactly
that row from the entity's own table and commits. -/
theorem delete_amended (db : DB) (x : Produto) (c : Categoria) :
    (x.id = none → ProdutoRepository.delete x db = (.error .notPersisted, db, [])) ∧
    (∀ k, x.id = some k → (∀ r ∈ db.produtos, r.id ≠ some k) →
      ProdutoRepository.delete x db = (.error .notPersisted, db, [.read])) ∧
    (∀ k, x.id = some k → (∃ r ∈ db.produtos, r.id = some k) →
      ∃ db', ProdutoRepository.delete x db = (.ok (), db', [.read, .commit]) ∧
        db'.categorias = db.categorias ∧ db'.fresh = db.fresh ∧
        (∀ r ∈ db.produtos, r.id ≠ some k → r ∈ db'.produtos) ∧
        (∀ r ∈ db'.produtos, r ∈ db.produtos ∧ r.id ≠ some k)) ∧
    (c.id = none → CategoriaRepository.delete c db = (.error .notPersisted, db, [])) ∧
    (∀ k, c.id = some k → (∀ r ∈ db.categorias, r.id ≠ some k) →
      CategoriaRepository.delete c db = (.error .notPersisted, db, [.read])) ∧
    (∀ k, c.id = some k → (∃ r ∈ db.categorias, r.id = some k) →
      ∃ db', CategoriaRepository.delete c db = (.ok (), db', [.read, .commit]) ∧
        db'.fresh = db.fresh ∧
        (∀ r ∈ db.categorias, r.id ≠ some k → r ∈ db'.categorias) ∧
        (∀ r ∈ db'.categorias, r ∈ db.categorias ∧ r.id ≠ some k)) := by
  refine ⟨?_, ?_, ?_, ?_, ?_, ?_⟩
  · intro h
    simp [ProdutoRepository.delete, h]
  · intro k hk hno
    have hany : (db.produtos.any fun r => sqlEq r.id (some k)) = false :=
      List.any_eq_false.mpr fun r hr => by
        simp only [sqlEq_some_iff]
        exact hno r hr
    simp [ProdutoRepository.delete, hk, hany]
  · intro k hk hmem
    obtain ⟨r0, hr0, hid0⟩ := hmem
    have hany : (db.produtos.any fun r => sqlEq r.id (some k)) = true :=
      List.any_eq_true.mpr ⟨r0, hr0, (sqlEq_some_iff _ _).mpr hid0⟩
    refine ⟨{ db with produtos := db.produtos.filter fun r => !sqlEq r.id (some k) },
      ?_, rfl, rfl, ?_, ?_⟩
    · simp [ProdutoRepository.delete, hk, hany]
    · intro r hr hne
      exact List.mem_filter.mpr ⟨hr, by
        simp only [Bool.not_eq_true', sqlEq_some_false_iff]
        exact hne⟩
    · intro r hr
      have hm := List.mem_filter.mp hr
      refine ⟨hm.1, ?_⟩
      have := hm.2
      simp only [Bool.not_eq_true', sqlEq_some_false_iff] at this
      exact this
  · intro h
    simp [CategoriaRepository.delete, h]
  · intro k hk hno
    have hany : (db.categorias.any fun r => sqlEq r.id (some k)) = false :=
      List.any_eq_false.mpr fun r hr => by
        simp only [sqlEq_some_iff]
        exact hno r hr
    simp [CategoriaRepository.delete, hk, hany]
  · intro k hk hmem
    obtain ⟨r0, hr0, hid0⟩ := hmem
    have hany : (db.categorias.any fun r => sqlEq r.id (some k)) = true :=
      List.any_eq_true.mpr ⟨r0, hr0, (sqlEq_some_iff _ _).mpr hid0⟩
    refine ⟨{ db with
        categorias := db.categorias.filter fun r => !sqlEq r.id (some k)
        produtos := db.produtos.filter fun r => !sqlEq r.categoria_id (some k) },
      ?_, rfl, ?_, ?_⟩
    · simp [CategoriaRepository.delete, hk, hany]
    · intro r hr hne
      exact List.mem_filter.mpr ⟨hr, by
        simp only [Bool.not_eq_true', sqlEq_some_false_iff]
        exact hne⟩
    · intro r hr
      have hm := List.mem_filter.mp hr
      refine ⟨hm.1, ?_⟩
      have := hm.2
      simp only [Bool.not_eq_true', sqlEq_some_false_iff] at this
      exact this

/-- Witness for `delete_amended`: deleting through `prodAcopia`, a detached
mutated copy whose key matches the stored row `prodA`, succeeds with a read
and a commit. -/
theorem delete_amended_witness :
    prodAcopia.id = some 10 ∧ prodA ∈ dbLoja.produtos ∧ prodA.id = some 10 ∧
    (ProdutoRepository.delete prodAcopia dbLoja).1 = .ok () ∧
    (ProdutoRepository.delete prodAcopia dbLoja).2.2 = [Event.read, Event.commit] := by
  obtain ⟨db', heq, -⟩ :=
    (delete_amended dbLoja prodAcopia catNew).2.2.1 10 rfl ⟨prodA, by decide, rfl⟩
  exact ⟨rfl, by decide, rfl, by rw [heq], by rw [heq]⟩

/-- C6: deleting a stored `Categoria` removes it and cascades over its
relationship, removing every `Produto` whose `categoria_id` is its key;
products of other categories are preserved. -/
theorem delete_categoria_cascade (c : Categoria) (k : Nat) (db : DB)
    (hc : c ∈ db.categorias) (hk : c.id = some k) :
    ∃ db', CategoriaRepository.delete c db = (.ok (), db', [.read, .commit]) ∧
      (∀ x ∈ db'.produtos, x.categoria_id ≠ some k) ∧
      (∀ r ∈ db'.categorias, r.id ≠ some k) ∧
      (∀ x ∈ db.produtos, x.categoria_id ≠ some k → x ∈ db'.produtos) ∧
      (∀ x ∈ db'.produtos, x ∈ db.produtos) ∧
      db'.fresh = db.fresh := by
  have hany : (db.categorias.any fun r => sqlEq r.id (some k)) = true :=
    List.any_eq_true.mpr ⟨c, hc, by rw [hk]; simp [sqlEq]⟩
  refine ⟨{ db with
      categorias := db.categorias.filter fun r => !sqlEq r.id (some k)
      produtos := db.produtos.filter fun x => !sqlEq x.categoria_id (some k) },
    ?_, ?_, ?_, ?_, ?_, rfl⟩
  · simp [CategoriaRepository.delete, hk, hany]
  · intro x hx
    have := (List.mem_filter.mp hx).2
    simp only [Bool.not_eq_true', sqlEq_some_false_iff] at this
    exact this
  · intro r hr
    have := (List.mem_filter.mp hr).2
    simp only [Bool.not_eq_true', sqlEq_some_false_iff] at this
    exact this
  · intro x hx hne
    exact List.mem_filter.mpr ⟨hx, by
      simp only [Bool.not_eq_true', sqlEq_some_false_iff]
      exact hne⟩
  · intro x hx
    exact (List.mem_filter.mp hx).1

/-- Witness for `delete_categoria_cascade`: deleting `cat1` from the
concrete store. -/
theorem delete_categoria_cascade_witness :
    ∃ db', CategoriaRepository.delete cat1 dbLoja = (.ok (), db', [.read, .commit]) ∧
      (∀ x ∈ db'.produtos, x.categoria_id ≠ some 1) ∧
      (∀ r ∈ db'.categorias, r.id ≠ some 1) ∧
      (∀ x ∈ dbLoja.produtos, x.categoria_id ≠ some 1 → x ∈ db'.produtos) ∧
      (∀ x ∈ db'.produtos, x ∈ dbLoja.produtos) ∧
      db'.fresh = dbLoja.fresh :=
  delete_categoria_cascade cat1 1 dbLoja (by decide) rfl

theorem no_commit_get_all {α : Type} (lo : Option (List LoadOption))
    (page page_size : Option Int) (rows : List α) :
    Event.commit ∉ (ISQLAlchemyRepository.get_all lo page page_size rows).2 := by
  unfold ISQLAlchemyRepository.get_all
  cases hbs : ISQLAlchemyRepository.build_statement rows lo page page_size <;>
    simp [hbs]

theorem no_commit_get {α : Type} (pred : Option (α → Bool))
    (lo : Option (List LoadOption)) (page page_size : Option Int) (rows : List α) :
    Event.commit ∉ (ISQLAlchemyRepository.get pred lo page page_size rows).2 := by
  unfold ISQLAlchemyRepository.get
  cases hbs : ISQLAlchemyRepository.build_statement
      (match pred with
        | some p => rows.filter p
        | none => rows) lo page page_size <;>
    simp [hbs]

theorem no_commit_get_first {α : Type} (pred : Option (α → Bool))
    (lo : Option (List LoadOption)) (rows : List α) :
    Event.commit ∉ (ISQLAlchemyRepository.get_first pred lo rows).2 := by
  unfold ISQLAlchemyRepository.get_first
  cases hbs : ISQLAlchemyRepository.build_statement
      (match pred with
        | some p => rows.filter p
        | none => rows) lo none none <;>
    simp [hbs]

theorem no_commit_get_by_id {α : Type} (getId : α → Option Nat) (key : List Nat)
    (lo : Option (List LoadOption)) (rows : List α) :
    Event.commit ∉ (ISQLAlchemyRepository.get_by_id getId key lo rows).2 := by
  match key with
  | [] => simp [ISQLAlchemyRepository.get_by_id]
  | [k] => simp [ISQLAlchemyRepository.get_by_id]
  | _ :: _ :: _ => simp [ISQLAlchemyRepository.get_by_id]

theorem no_commit_count {α : Type} (pred : Option (α → Bool)) (rows : List α) :
    Event.commit ∉ (ISQLAlchemyRepository.count pred rows).2 := by
  cases pred <;> simp [ISQLAlchemyRepository.count]

theorem no_commit_get_produtos (info : CategoriaRef) (page page_size : Option Int)
    (db : DB) :
    (CategoriaRepository.get_produtos info page page_size db).2.1 = db ∧
    Event.commit ∉ (CategoriaRepository.get_produtos info page page_size db).2.2 := by
  cases info with
  | obj c =>
    cases hcid : c.id with
    | none =>
      constructor <;> simp [CategoriaRepository.get_produtos, hcid]
    | some k =>
      constructor
      · simp only [CategoriaRepository.get_produtos, hcid]
        split <;> rfl
      · simp only [CategoriaRepository.get_produtos, hcid]
        split <;> simp
  | invalid => exact ⟨rfl, by simp [CategoriaRepository.get_produtos]⟩
  | key k =>
    cases hf : List.find? (fun r => sqlEq r.id (some k)) db.categorias with
    | none =>
      constructor <;>
        simp [CategoriaRepository.get_produtos, ISQLAlchemyRepository.get_by_id, hf]
    | some c =>
      constructor <;>
        simp [CategoriaRepository.get_produtos, ISQLAlchemyRepository.get_by_id, hf]

/-- C10: every read-only operation returns the stored state unchanged and its
storage-interaction trace contains no commit — including `get_produtos` on a
materialized (possibly locally mutated) `Categoria`, whose merge into the
fresh unit-of-work is discarded when the session closes uncommitted. -/
theorem read_operations_pure (db : DB) (lo : Option (List LoadOption))
    (page page_size : Option Int) (predP : Option (Produto → Bool))
    (predC : Option (Categoria → Bool)) (key : List Nat) (info : CategoriaRef)
    (pmin pmax : Int) :
    ((ProdutoRepository.get_all lo page page_size db).2.1 = db ∧
      Event.commit ∉ (ProdutoRepository.get_all lo page page_size db).2.2) ∧
    ((ProdutoRepository.get predP lo page page_size db).2.1 = db ∧
      Event.commit ∉ (ProdutoRepository.get predP lo page page_size db).2.2) ∧
    ((ProdutoRepository.get_first predP lo db).2.1 = db ∧
      Event.commit ∉ (ProdutoRepository.get_first predP lo db).2.2) ∧
    ((ProdutoRepository.get_by_id key lo db).2.1 = db ∧
      Event.commit ∉ (ProdutoRepository.get_by_id key lo db).2.2) ∧
    ((ProdutoRepository.count predP db).2.1 = db ∧
      Event.commit ∉ (ProdutoRepository.count predP db).2.2) ∧
    ((CategoriaRepository.get_all lo page page_size db).2.1 = db ∧
      Event.commit ∉ (CategoriaRepository.get_all lo page page_size db).2.2) ∧
    ((CategoriaRepository.get predC lo page page_size db).2.1 = db ∧
      Event.commit ∉ (CategoriaRepository.get predC lo page page_size db).2.2) ∧
    ((CategoriaRepository.get_first predC lo db).2.1 = db ∧
      Event.commit ∉ (CategoriaRepository.get_first predC lo db).2.2) ∧
    ((CategoriaRepository.get_by_id key lo db).2.1 = db ∧
      Event.commit ∉ (CategoriaRepository.get_by_id key lo db).2.2) ∧
    ((CategoriaRepository.count predC db).2.1 = db ∧
      Event.commit ∉ (CategoriaRepository.count predC db).2.2) ∧
    ((CategoriaRepository.get_produtos info page page_size db).2.1 = db ∧
      Event.commit ∉ (CategoriaRepository.get_produtos info page page_size db).2.2) ∧
    ((CategoriaRepository.get_categorias_sem_produtos page page_size db).2.1 = db ∧
      Event.commit ∉
        (CategoriaRepository.get_categorias_sem_produtos page page_size db).2.2) ∧
    ((ProdutoRepository.produtos_por_preco pmin pmax page page_size db).2.1 = db ∧
      Event.commit ∉
        (ProdutoRepository.produtos_por_preco pmin pmax page page_size db).2.2) ∧
    ((ProdutoRepository.produtos_sem_estoque page page_size db).2.1 = db ∧
      Event.commit ∉ (ProdutoRepository.produtos_sem_estoque page page_size db).2.2) ∧
    ((ProdutoRepository.produtos_inativos page page_size db).2.1 = db ∧
      Event.commit ∉ (ProdutoRepository.produtos_inativos page page_size db).2.2) :=
  ⟨⟨rfl, no_commit_get_all lo page page_size db.produtos⟩,
   ⟨rfl, no_commit_get predP lo page page_size db.produtos⟩,
   ⟨rfl, no_commit_get_first predP lo db.produtos⟩,
   ⟨rfl, no_commit_get_by_id (fun x : Produto => x.id) key lo db.produtos⟩,
   ⟨rfl, no_commit_count predP db.produtos⟩,
   ⟨rfl, no_commit_get_all lo page page_size db.categorias⟩,
   ⟨rfl, no_commit_get predC lo page page_size db.categorias⟩,
   ⟨rfl, no_commit_get_first predC lo db.categorias⟩,
   ⟨rfl, no_commit_get_by_id (fun c : Categoria => c.id) key lo db.categorias⟩,
   ⟨rfl, no_commit_count predC db.categorias⟩,
   no_commit_get_produtos info page page_size db,
   ⟨rfl, no_commit_get _ none page page_size db.categorias⟩,
   ⟨rfl, no_commit_get _ none page page_size db.produtos⟩,
   ⟨rfl, no_commit_get _ none page page_size db.produtos⟩,
   ⟨rfl, no_commit_get _ none page page_size db.produtos⟩⟩
